import Mathlib

/-!
Verification of the streaming bridge of the chatapp repository
(routes/chat.py, chatmodels.py, utils.py, models.py).

The streaming pipeline is shallowly embedded as follows:

* a provider delta is the pair `(content_chunk, reasoning_chunk)` yielded by
  `ask_ai_stream_context` (chatmodels.py);
* `workerLoop` / `generator_thread` embed the body of the inner function
  `generator_thread` of `ask_question_stream` (routes/chat.py): for each delta
  pulled from the provider generator it first reads the stop flag
  (`STOP_FLAGS.get(dialog_id, False)`) and breaks if set, otherwise appends a
  non-empty content part to `full_response`, appends a non-empty reasoning part
  to `full_reasoning` and puts it on the reasoning queue, and unconditionally
  puts the content part on `chunk_queue`; the `finally` block puts the `None`
  sentinel on both queues.  The `except` branch only prints the error, which is
  modelled by the `errorLogged` field;
* `answer_generator_yields` embeds the consumer loop of `answer_generator`
  (routes/chat.py): it takes items from `chunk_queue` until the `None`
  sentinel and yields exactly the non-empty chunks;
* the stop-flag registry `STOP_FLAGS` (utils.py) is embedded as a partial map
  from dialog ids to booleans with Python `dict` access semantics.
-/

/-- A provider delta `(content_chunk, reasoning_chunk)`, as yielded by
`ask_ai_stream_context` in chatmodels.py. -/
def Delta : Type := String × String

instance : DecidableEq Delta := instDecidableEqProd

/-- Result of one run of the worker loop body of `generator_thread`
(routes/chat.py) before the `finally` block: the accumulators
`full_response` and `full_reasoning`, the items put on `chunk_queue` and on
the reasoning queue, and whether the loop exited through the stop-flag
`break`. -/
structure LoopOut where
  fr : List String
  fg : List String
  cq : List (Option String)
  rq : List (Option String)
  broke : Bool
deriving DecidableEq

/-- The `for content_chunk, reasoning_chunk in generator` loop of
`generator_thread` (routes/chat.py, lines 111-128).  `flag i` is the value
`STOP_FLAGS.get(dialog.dialog_id, False)` observed at the check of the
`i`-th iteration; the check happens after the delta has been pulled and
before it is processed, and a set flag discards the pulled delta. -/
def workerLoop (flag : Nat → Bool) : Nat → List Delta → LoopOut
  | _, [] => ⟨[], [], [], [], false⟩
  | i, d :: rest =>
    if flag i then ⟨[], [], [], [], true⟩
    else
      let o := workerLoop flag (i + 1) rest
      ⟨if d.1 != "" then d.1 :: o.fr else o.fr,
       if d.2 != "" then d.2 :: o.fg else o.fg,
       some d.1 :: o.cq,
       if d.2 != "" then some d.2 :: o.rq else o.rq,
       o.broke⟩

/-- Observable outcome of the whole worker thread: accumulators, the full
item sequences pushed on the two queues (sentinel included), and whether the
`except` branch logged a provider error. -/
structure WorkerResult where
  fullResponse : List String
  fullReasoning : List String
  chunkItems : List (Option String)
  reasoningItems : List (Option String)
  errorLogged : Bool
deriving DecidableEq

/-- The whole `generator_thread` function (routes/chat.py, lines 110-136):
the loop, the `except` branch (which only prints the exception), and the
`finally` block that pushes the `None` sentinel on `chunk_queue` and on the
reasoning queue.  `raises` states whether the provider generator raises in
place of terminating normally; the exception is raised at the pull
following the last produced delta, so it is only reached when the loop was
not broken by the stop flag. -/
def generator_thread (flag : Nat → Bool) (deltas : List Delta) (raises : Bool) :
    WorkerResult :=
  let o := workerLoop flag 0 deltas
  ⟨o.fr, o.fg, o.cq ++ [none], o.rq ++ [none], raises && !o.broke⟩

/-- The consumer loop of `answer_generator` (routes/chat.py, lines 144-152):
take items from `chunk_queue` until the `None` sentinel, and yield exactly
the non-empty chunks, in order. -/
def answer_generator_yields : List (Option String) → List String
  | [] => []
  | none :: _ => []
  | some c :: rest =>
    if c != "" then c :: answer_generator_yields rest
    else answer_generator_yields rest

/-- Concatenation of a list of strings, as performed by `"".join(...)` in
`answer_generator` before the persistence call. -/
def concatAll : List String → String
  | [] => ""
  | s :: rest => s ++ concatAll rest

theorem empty_append_str (s : String) : "" ++ s = s := by
  cases s
  rfl

theorem concatAll_filter (l : List String) :
    concatAll (l.filter (fun s => s != "")) = concatAll l := by
  induction l with
  | nil => rfl
  | cons s rest ih =>
    by_cases hs : s = ""
    · subst hs
      simpa [List.filter_cons, concatAll, empty_append_str] using ih
    · simp [List.filter_cons, hs, concatAll, ih]

theorem yields_workerLoop (flag : Nat → Bool) (deltas : List Delta) : ∀ i : Nat,
    answer_generator_yields ((workerLoop flag i deltas).cq ++ [none]) =
      (workerLoop flag i deltas).fr := by
  induction deltas with
  | nil => intro i; rfl
  | cons d rest ih =>
    intro i
    by_cases hf : flag i
    · simp [workerLoop, hf, answer_generator_yields]
    · cases hd : (d.1 != "") <;>
        simp [workerLoop, hf, answer_generator_yields, hd, ih (i + 1)]

theorem fr_eq_filter_cq (flag : Nat → Bool) (deltas : List Delta) : ∀ i : Nat,
    (workerLoop flag i deltas).fr =
      ((workerLoop flag i deltas).cq.filterMap id).filter (fun s => s != "") := by
  induction deltas with
  | nil => intro i; rfl
  | cons d rest ih =>
    intro i
    by_cases hf : flag i
    · simp [workerLoop, hf]
    · cases hd : (d.1 != "") <;>
        simp [workerLoop, hf, List.filterMap_cons, List.filter_cons, hd, ih (i + 1)]

theorem workerLoop_noStop (deltas : List Delta) : ∀ i : Nat,
    workerLoop (fun _ => false) i deltas =
      ⟨(deltas.map Prod.fst).filter (fun s => s != ""),
       (deltas.map Prod.snd).filter (fun s => s != ""),
       deltas.map (fun d => some d.1),
       ((deltas.map Prod.snd).filter (fun s => s != "")).map some,
       false⟩ := by
  induction deltas with
  | nil => intro i; rfl
  | cons d rest ih =>
    intro i
    cases hc : (d.1 != "") <;> cases hr : (d.2 != "") <;>
      simp [workerLoop, ih (i + 1), List.filter_cons, hc, hr]

theorem workerLoop_stopAt (N : Nat) (deltas : List Delta) : ∀ i : Nat,
    workerLoop (fun j => decide (N ≤ j)) i deltas =
      ⟨((deltas.take (N - i)).map Prod.fst).filter (fun s => s != ""),
       ((deltas.take (N - i)).map Prod.snd).filter (fun s => s != ""),
       (deltas.take (N - i)).map (fun d => some d.1),
       (((deltas.take (N - i)).map Prod.snd).filter (fun s => s != "")).map some,
       decide (N - i < deltas.length)⟩ := by
  induction deltas with
  | nil => intro i; simp [workerLoop]
  | cons d rest ih =>
    intro i
    by_cases hNi : N ≤ i
    · have h0 : N - i = 0 := Nat.sub_eq_zero_of_le hNi
      simp [workerLoop, hNi, h0]
    · have h1 : (d :: rest).take (N - i) = d :: rest.take (N - (i + 1)) := by
        have hs : N - i = (N - (i + 1)) + 1 := by omega
        rw [hs, List.take_succ_cons]
      have h2 : decide (N - (i + 1) < rest.length) =
          decide (N - i < (d :: rest).length) := by
        refine decide_eq_decide.mpr ?hiff
        simp only [List.length_cons]
        omega
      have ih1 := ih (i + 1)
      rw [h2] at ih1
      cases hc : (d.1 != "") <;> cases hr : (d.2 != "") <;>
        simp [workerLoop, hNi, ih1, h1, List.filter_cons, hc, hr]

/-- The global `STOP_FLAGS` dictionary (utils.py, line 19): a partial map
from dialog ids to booleans, with Python `dict` semantics. -/
def Registry : Type := Nat → Option Bool

/-- The empty `STOP_FLAGS` dictionary (its initial value, `{}`). -/
def emptyRegistry : Registry := fun _ => none

/-- Python `STOP_FLAGS[k] = v`. -/
def dictSet (m : Registry) (k : Nat) (v : Bool) : Registry :=
  fun j => if j = k then some v else m j

/-- Python `STOP_FLAGS.get(k, d)`. -/
def dictGetD (m : Registry) (k : Nat) (d : Bool) : Bool :=
  (m k).getD d

/-- Python `k in STOP_FLAGS`. -/
def dictContains (m : Registry) (k : Nat) : Bool :=
  (m k).isSome

/-- `STOP_FLAGS[dialog.dialog_id] = False` executed by `ask_question_stream`
before the stream starts (routes/chat.py, line 56). -/
def askInitFlag (m : Registry) (did : Nat) : Registry :=
  dictSet m did false

/-- Effect of stream termination on `STOP_FLAGS`: `generator_thread`'s
`finally` block and the tail of `answer_generator` (routes/chat.py, lines
129-159) touch only `chunk_queue` and `REASONING_QUEUES`; no statement in
routes/chat.py deletes or pops a `STOP_FLAGS` entry, so the registry is
returned unchanged. -/
def streamEndCleanup (m : Registry) (_did : Nat) : Registry := m

/-- The `stop_reply` endpoint (routes/chat.py, lines 233-256): sets
`STOP_FLAGS[dialog_id] = True` and returns the fixed success message; the
reasoning-queue signal is wrapped in `try ... except: pass`, so the handler
is total and never raises. -/
def stop_reply (m : Registry) (did : Nat) : Registry × String :=
  (dictSet m did true, "停止请求已接收")

/-- One frame of the reasoning side-channel stream: `reasoning_generator`
(routes/chat.py, line 214) for a non-sentinel chunk. -/
def msgFrame (c : String) : String := "event: message\ndata: " ++ c ++ "\n\n"

/-- The completion frame emitted by `reasoning_generator` (routes/chat.py,
line 211) when the `None` sentinel is taken from the queue. -/
def completeFrame : String := "event: complete\ndata: complete\n\n"

/-- State of `reasoning_generator` after consuming the listed queue items:
either it took a `None` sentinel and terminated (`completed`), or it
consumed every available item without meeting a sentinel and is suspended
in `await queue.get()` (`blocked`).  Both carry the frames emitted so far. -/
inductive GenOutcome where
  | completed (frames : List String)
  | blocked (frames : List String)
deriving DecidableEq

/-- The loop of `reasoning_generator` in `stream_reasoning_content`
(routes/chat.py, lines 207-215), run over the sequence of items available
on the conversation's reasoning queue: a `None` item yields the completion
frame and breaks; a chunk yields a message frame; when the items run out
without a sentinel, `await queue.get()` suspends. -/
def reasoning_generator : List (Option String) → GenOutcome
  | [] => GenOutcome.blocked []
  | none :: _ => GenOutcome.completed [completeFrame]
  | some c :: rest =>
    match reasoning_generator rest with
    | GenOutcome.completed fs => GenOutcome.completed (msgFrame c :: fs)
    | GenOutcome.blocked fs => GenOutcome.blocked (msgFrame c :: fs)

/-- Items on the queue that `stream_reasoning_content` creates when it is
queried for a dialog id absent from `REASONING_QUEUES` (routes/chat.py,
lines 198-200): `asyncio.Queue()` starts empty, and no producer exists for
an id whose stream never started. -/
def freshReasoningQueue : List (Option String) := []

/-- A row of the `chat_records` table as written by `save_to_db`
(models.py, lines 36-52): only the columns this development reasons about. -/
structure ChatRecordRow where
  dialog_id : Nat
  user_id : Nat
  content : String
  role : Nat
  reasoning_content : Option String
deriving DecidableEq

/-- The two rows inserted by the body of `save_to_db` (utils.py, lines
38-55): the user turn with `role=1` and the AI turn with `role=0`; neither
record sets `reasoning_content`, so it keeps its `NULL` column default. -/
def save_to_db_records (did uid : Nat) (question answer : String) :
    List ChatRecordRow :=
  [⟨did, uid, question, 1, none⟩, ⟨did, uid, answer, 0, none⟩]

/-- The parameter names of `save_to_db` as defined in utils.py, line 22:
`def save_to_db(db, user, dialog, question, answer, image_path=None)`. -/
def save_to_db_params : List String :=
  ["db", "user", "dialog", "question", "answer", "image_path"]

/-- The keyword argument names used by the `save_to_db(...)` call at the end
of `answer_generator` (routes/chat.py, lines 154-159). -/
def save_call_kwargs : List String := ["reasoning_content", "image_path"]

/-- Python call binding for keyword arguments: every keyword must name a
parameter of the callee, otherwise the call raises `TypeError` before the
function body runs. -/
def kwargsAccepted (params kwargs : List String) : Bool :=
  kwargs.all (fun k => params.contains k)

/-- The persistence call performed by `answer_generator` after the terminal
sentinel: if the keyword arguments bind to `save_to_db`'s parameters the
body runs and inserts its two rows, otherwise Python raises `TypeError`
at the call site and nothing is written (`none`). -/
def callSaveToDb (kwargs : List String) (did uid : Nat)
    (question answer : String) : Option (List ChatRecordRow) :=
  if kwargsAccepted save_to_db_params kwargs then
    some (save_to_db_records did uid question answer)
  else none

/-- A database table contents obtained from a sequence of `save_to_db`
body executions, each given as `(dialog_id, user_id, question, answer)`. -/
def dbFromSaves : List (Nat × Nat × String × String) → List ChatRecordRow
  | [] => []
  | (did, uid, q, a) :: rest => save_to_db_records did uid q a ++ dbFromSaves rest

/-- The query of `get_reasoning_content` (routes/chat.py, lines 181-193):
filter `chat_records` by the dialog id and `role == 2`, take the first
record (the `desc(created_at)` ordering cannot affect emptiness), and
answer 404 when none exists, else the record's reasoning text. -/
def get_reasoning_content (db : List ChatRecordRow) (did : Nat) :
    Except Nat String :=
  match (db.filter (fun r => r.dialog_id == did && r.role == 2)).head? with
  | none => Except.error 404
  | some r => Except.ok (r.reasoning_content.getD "")

/-- A raw provider chunk delta: `delta.content` and
`delta.reasoning_content`, each possibly absent. -/
def RawDelta : Type := Option String × Option String

/-- Normalization performed per chunk in `ask_ai_stream_context`
(chatmodels.py, lines 71-84): a missing or falsy attribute becomes the
empty string. -/
def normalizeDelta (d : RawDelta) : Delta := (d.1.getD "", d.2.getD "")

/-- The model selectors for which the `if`/`elif` chain of
`ask_ai_stream_context` (chatmodels.py, lines 33-69) binds the `response`
variable. -/
def knownModels : List String :=
  ["model1", "model2", "model3", "model4", "model5", "model6"]

/-- The observable behaviour of the generator `ask_ai_stream_context`
(chatmodels.py, lines 26-84): for a known selector it yields one
normalized delta per provider chunk and terminates; for any other selector
no branch binds `response`, so the `for chunk in response` line raises
`NameError` before the first `yield` — no delta is produced and the
consumer sees an exception (second component `true`). -/
def ask_ai_stream_context (model : String) (raw : List RawDelta) :
    List Delta × Bool :=
  if knownModels.contains model then (raw.map normalizeDelta, false)
  else ([], true)

/-- Claim C1.  The persistence step never succeeds: the `save_to_db(...)`
call at the end of `answer_generator` (routes/chat.py, lines 154-159)
passes the keyword argument `reasoning_content`, but `save_to_db` as
defined in utils.py (line 22) has no such parameter, so Python raises
`TypeError` at the call site and no record is written — `save_to_db` is
not "invoked exactly once after the terminal sentinel" as the claim
states; its body is never entered at all. -/
theorem c1_persistence_call_raises :
    kwargsAccepted save_to_db_params save_call_kwargs = false ∧
    save_to_db_params.contains "reasoning_content" = false ∧
    callSaveToDb save_call_kwargs 1 2 "2+2?" "4" = none := by
  decide

/-- Claim C2.  For every delta sequence, every stop-flag trace and every
provider-termination mode, the chunks the consumer receives from
`chunk_queue` and re-emits equal, item for item, the worker's
`full_response` accumulator that is handed to the persistence call, and
the concatenation of all forwarded answer parts equals the concatenation
of that accumulator: no drop, duplication or reordering on the answer
channel. -/
theorem c2_forwarded_equals_accumulated (flag : Nat → Bool) (deltas : List Delta)
    (raises : Bool) :
    answer_generator_yields (generator_thread flag deltas raises).chunkItems =
      (generator_thread flag deltas raises).fullResponse ∧
    concatAll ((generator_thread flag deltas raises).chunkItems.filterMap id) =
      concatAll (generator_thread flag deltas raises).fullResponse := by
  constructor
  · simpa [generator_thread] using yields_workerLoop flag deltas 0
  · show concatAll (((workerLoop flag 0 deltas).cq ++ [none]).filterMap id) =
      concatAll (workerLoop flag 0 deltas).fr
    rw [List.filterMap_append, fr_eq_filter_cq flag deltas 0, concatAll_filter]
    simp

/-- Claim C3.  If the stop flag is first observed set at the check of
iteration `N` (the worker reads `STOP_FLAGS.get` after pulling and before
processing each delta), the worker forwards exactly the first `N` deltas'
content parts followed by the terminal sentinel — the already-pulled
delta number `N` is neither forwarded nor accumulated — and the text
handed to persistence is exactly the concatenation of the first `N`
deltas' answer parts, and likewise for the reasoning parts. -/
theorem c3_cancel_persists_first_n (deltas : List Delta) (N : Nat) (raises : Bool)
    (h : N < deltas.length) :
    (generator_thread (fun i => decide (N ≤ i)) deltas raises).chunkItems =
      ((deltas.take N).map (fun d => some d.1)) ++ [none] ∧
    concatAll (generator_thread (fun i => decide (N ≤ i)) deltas raises).fullResponse =
      concatAll ((deltas.take N).map Prod.fst) ∧
    concatAll (generator_thread (fun i => decide (N ≤ i)) deltas raises).fullReasoning =
      concatAll ((deltas.take N).map Prod.snd) := by
  have hw := workerLoop_stopAt N deltas 0
  simp only [Nat.sub_zero] at hw
  refine ⟨?_, ?_, ?_⟩ <;> simp [generator_thread, hw, concatAll_filter]

/-- Closed instance of `c3_cancel_persists_first_n`: the stop flag set at
the check of iteration 2 over three provider deltas persists exactly
`Theanswer` and `think1think2` and discards the pulled third delta. -/
theorem c3_cancel_witness :
    2 < ([("The", "think1"), ("answer", "think2"), ("x", "y")] : List Delta).length ∧
    ((generator_thread (fun i => decide (2 ≤ i))
        [("The", "think1"), ("answer", "think2"), ("x", "y")] false).chunkItems =
      ((([("The", "think1"), ("answer", "think2"), ("x", "y")] : List Delta).take 2).map
        (fun d => some d.1)) ++ [none] ∧
    concatAll (generator_thread (fun i => decide (2 ≤ i))
        [("The", "think1"), ("answer", "think2"), ("x", "y")] false).fullResponse =
      concatAll ((([("The", "think1"), ("answer", "think2"), ("x", "y")] : List Delta).take 2).map
        Prod.fst) ∧
    concatAll (generator_thread (fun i => decide (2 ≤ i))
        [("The", "think1"), ("answer", "think2"), ("x", "y")] false).fullReasoning =
      concatAll ((([("The", "think1"), ("answer", "think2"), ("x", "y")] : List Delta).take 2).map
        Prod.snd)) :=
  ⟨by decide, c3_cancel_persists_first_n
    [("The", "think1"), ("answer", "think2"), ("x", "y")] 2 false (by decide)⟩

/-- Claim C4 (amended).  When the provider sequence raises after producing
its deltas, `generator_thread` catches the exception, so it never crosses
the thread boundary: the terminal sentinel is still pushed on both queues
(the consumer never blocks forever) and the accumulated partial text is
identical to that of a non-raising run — but the failure is only logged
server-side (`errorLogged`); everything pushed over the handoff channel is
identical to the normal-completion run, so no out-of-band error indicator
reaches the encoder. -/
theorem c4_failure_contained (flag : Nat → Bool) (deltas : List Delta) :
    (generator_thread flag deltas true).fullResponse =
      (generator_thread flag deltas false).fullResponse ∧
    (generator_thread flag deltas true).fullReasoning =
      (generator_thread flag deltas false).fullReasoning ∧
    (generator_thread flag deltas true).chunkItems =
      (generator_thread flag deltas false).chunkItems ∧
    (generator_thread flag deltas true).reasoningItems =
      (generator_thread flag deltas false).reasoningItems ∧
    (generator_thread flag deltas true).chunkItems.getLast? = some none ∧
    (generator_thread flag deltas true).reasoningItems.getLast? = some none := by
  refine ⟨rfl, rfl, rfl, rfl, ?_, ?_⟩ <;> simp [generator_thread]

/-- Counterexample to claim C4 as stated: after a provider failure
following the single delta `("a", "")`, the items pushed on both handoff
queues are exactly those of the failure-free run of the same delta — the
`except` branch only prints (`errorLogged`), so no out-of-band error
indicator is surfaced to the encoder, contradicting the claim's final
conjunct at this input. -/
theorem c4_no_indicator_counterexample :
    (generator_thread (fun _ => false) [("a", "")] true).chunkItems =
      (generator_thread (fun _ => false) [("a", "")] false).chunkItems ∧
    (generator_thread (fun _ => false) [("a", "")] true).reasoningItems =
      (generator_thread (fun _ => false) [("a", "")] false).reasoningItems ∧
    (generator_thread (fun _ => false) [("a", "")] true).chunkItems =
      [some "a", none] ∧
    (generator_thread (fun _ => false) [("a", "")] true).errorLogged = true := by
  decide

/-- Claim C5 (amended).  The `STOP_FLAGS` entry written at stream start is
never removed: no statement in routes/chat.py deletes or pops it, so after
the stream ends (and its persistence step runs) the registry still holds
an entry for the conversation id — stream termination leaves the registry
exactly as the start of the stream left it. -/
theorem c5_flag_entry_retained (m : Registry) (did : Nat) :
    dictContains (streamEndCleanup (askInitFlag m did) did) did = true ∧
    streamEndCleanup (askInitFlag m did) did = askInitFlag m did := by
  constructor
  · simp [dictContains, streamEndCleanup, askInitFlag, dictSet]
  · rfl

/-- Counterexample to claim C5 as stated: starting a stream for dialog 1
on an empty registry and running it to its end leaves `STOP_FLAGS` holding
the entry `1 ↦ False`, where the claim requires the registry to hold no
entry for that conversation id. -/
theorem c5_entry_remains_counterexample :
    dictContains (streamEndCleanup (askInitFlag emptyRegistry 1) 1) 1 = true ∧
    streamEndCleanup (askInitFlag emptyRegistry 1) 1 1 = some false := by
  exact ⟨rfl, rfl⟩

/-- Claim C6.  A stop request for a conversation id with no active stream
(no registry entry) returns the fixed success message and cannot raise;
the flag read for such an id defaults to not-cancelled; and a stream
started for that id afterwards re-initializes the flag to `False`, so the
earlier stop has no effect on it. -/
theorem c6_stop_without_stream (m : Registry) (did : Nat)
    (h : dictContains m did = false) :
    (stop_reply m did).2 = "停止请求已接收" ∧
    dictGetD m did false = false ∧
    dictGetD (askInitFlag (stop_reply m did).1 did) did false = false := by
  refine ⟨rfl, ?_, ?_⟩
  · cases hm : m did with
    | none => simp [dictGetD, hm]
    | some b => simp [dictContains, hm] at h
  · simp [dictGetD, askInitFlag, dictSet, stop_reply]

/-- Closed instance of `c6_stop_without_stream` at the empty registry and
dialog id 1. -/
theorem c6_stop_witness :
    dictContains emptyRegistry 1 = false ∧
    ((stop_reply emptyRegistry 1).2 = "停止请求已接收" ∧
     dictGetD emptyRegistry 1 false = false ∧
     dictGetD (askInitFlag (stop_reply emptyRegistry 1).1 1) 1 false = false) :=
  ⟨rfl, c6_stop_without_stream emptyRegistry 1 rfl⟩

/-- Claim C7 (amended).  Queried for a conversation id for which no stream
has ever started, `stream_reasoning_content` registers a fresh empty queue
and its generator suspends on `await queue.get()` without emitting any
frame: it does not terminate and does not emit the completion marker until
a sentinel is later put on the queue (the second conjunct shows the
sentinel is what produces the completion frame). -/
theorem c7_fresh_query_blocks :
    reasoning_generator freshReasoningQueue = GenOutcome.blocked [] ∧
    reasoning_generator [none] = GenOutcome.completed [completeFrame] :=
  ⟨rfl, rfl⟩

/-- Counterexample to claim C7 as stated: on the empty queue created for an
id with no prior stream, the generator does not complete immediately with
the completion marker — it is suspended with no frames emitted. -/
theorem c7_not_completing_counterexample :
    reasoning_generator freshReasoningQueue ≠
      GenOutcome.completed [completeFrame] := by
  decide

/-- Claim C8.  In plain-text mode, for every delta sequence (no stop
request) and either provider-termination mode, the chunks emitted on the
main channel are exactly the non-empty answer parts in order — deltas with
an empty answer part produce no output — and the emitted text is the
concatenation of the answer parts alone: no reasoning part reaches the
main channel. -/
theorem c8_plaintext_channel (deltas : List Delta) (raises : Bool) :
    answer_generator_yields
        (generator_thread (fun _ => false) deltas raises).chunkItems =
      (deltas.map Prod.fst).filter (fun s => s != "") ∧
    concatAll (answer_generator_yields
        (generator_thread (fun _ => false) deltas raises).chunkItems) =
      concatAll (deltas.map Prod.fst) := by
  have h1 : answer_generator_yields
      (generator_thread (fun _ => false) deltas raises).chunkItems =
      (generator_thread (fun _ => false) deltas raises).fullResponse := by
    simpa [generator_thread] using yields_workerLoop (fun _ => false) deltas 0
  have h2 : (generator_thread (fun _ => false) deltas raises).fullResponse =
      (deltas.map Prod.fst).filter (fun s => s != "") := by
    simp [generator_thread, workerLoop_noStop deltas 0]
  exact ⟨h1.trans h2, by rw [h1, h2, concatAll_filter]⟩

theorem dbFromSaves_no_role2 (did : Nat)
    (saves : List (Nat × Nat × String × String)) :
    (dbFromSaves saves).filter (fun r => r.dialog_id == did && r.role == 2)
      = [] := by
  induction saves with
  | nil => rfl
  | cons s rest ih =>
    obtain ⟨d, u, q, a⟩ := s
    simp [dbFromSaves, save_to_db_records, List.filter_append,
      List.filter_cons, ih]

/-- Claim C9.  Every database produced by executions of `save_to_db`'s
body contains only rows with role 0 or 1 (as the schema's check constraint
requires), so the `get_reasoning_content` endpoint, which filters by
`role == 2`, finds no record for any dialog id and answers 404 — even
when assistant replies exist for that dialog. -/
theorem c9_reasoning_lookup_404 (saves : List (Nat × Nat × String × String))
    (did : Nat) :
    get_reasoning_content (dbFromSaves saves) did = Except.error 404 ∧
    (dbFromSaves saves).all (fun r => r.role == 0 || r.role == 1) = true := by
  constructor
  · simp [get_reasoning_content, dbFromSaves_no_role2 did saves]
  · induction saves with
    | nil => rfl
    | cons s rest ih =>
      obtain ⟨d, u, q, a⟩ := s
      simp [dbFromSaves, save_to_db_records, List.all_append, ih]

/-- Claim C10.  For a model selector outside the six-branch `if`/`elif`
chain the provider adapter raises `NameError` at its iteration loop before
any `yield`, so whatever chunks the network client would have produced,
the stream handed to `generator_thread` holds no delta, the error flag is
set, and the accumulated answer and reasoning are both empty. -/
theorem c10_unknown_model_empty (model : String) (raw : List RawDelta)
    (flag : Nat → Bool) (h : knownModels.contains model = false) :
    (ask_ai_stream_context model raw).1 = [] ∧
    (ask_ai_stream_context model raw).2 = true ∧
    (generator_thread flag (ask_ai_stream_context model raw).1
      (ask_ai_stream_context model raw).2).fullResponse = [] ∧
    (generator_thread flag (ask_ai_stream_context model raw).1
      (ask_ai_stream_context model raw).2).fullReasoning = [] ∧
    concatAll (generator_thread flag (ask_ai_stream_context model raw).1
      (ask_ai_stream_context model raw).2).fullResponse = "" ∧
    concatAll (generator_thread flag (ask_ai_stream_context model raw).1
      (ask_ai_stream_context model raw).2).fullReasoning = "" := by
  have hmem : model ∉ knownModels := by simpa using h
  have ha : ask_ai_stream_context model raw = ([], true) := by
    simp [ask_ai_stream_context, hmem]
  rw [ha]
  simp [generator_thread, workerLoop, concatAll]

/-- Closed instance of `c10_unknown_model_empty` at the selector `gpt-4`,
one raw provider chunk and the all-clear stop flag. -/
theorem c10_unknown_model_witness :
    knownModels.contains "gpt-4" = false ∧
    ((ask_ai_stream_context "gpt-4" [(some "x", some "y")]).1 = [] ∧
    (ask_ai_stream_context "gpt-4" [(some "x", some "y")]).2 = true ∧
    (generator_thread (fun _ => false)
      (ask_ai_stream_context "gpt-4" [(some "x", some "y")]).1
      (ask_ai_stream_context "gpt-4" [(some "x", some "y")]).2).fullResponse = [] ∧
    (generator_thread (fun _ => false)
      (ask_ai_stream_context "gpt-4" [(some "x", some "y")]).1
      (ask_ai_stream_context "gpt-4" [(some "x", some "y")]).2).fullReasoning = [] ∧
    concatAll (generator_thread (fun _ => false)
      (ask_ai_stream_context "gpt-4" [(some "x", some "y")]).1
      (ask_ai_stream_context "gpt-4" [(some "x", some "y")]).2).fullResponse = "" ∧
    concatAll (generator_thread (fun _ => false)
      (ask_ai_stream_context "gpt-4" [(some "x", some "y")]).1
      (ask_ai_stream_context "gpt-4" [(some "x", some "y")]).2).fullReasoning = "") :=
  ⟨by decide, c10_unknown_model_empty "gpt-4" [(some "x", some "y")]
    (fun _ => false) (by decide)⟩
